import Mathlib

/-!
Verification of the `tre` repository.

Shallow embedding of the two scripts in this repository:

* `aifinger.py` — a webcam finger counter. The pure core is
  `count_fingers(hand_landmarks)` together with the parity label computed in
  the main loop.
* `streamlit_app.py` — a CSV summary dashboard. The pure pieces are
  `format_bytes`, the CSV-loading `try/except` control flow, the
  missing-value percentage and schema report, the preview slider bounds, and
  the per-column top-value tables.

Real numbers that Python holds in IEEE doubles are modelled as rationals
(`ℚ`), with CPython's overflow behaviour made explicit: converting an `int`
to a double — as `f"{num_bytes:.2f}"` does, and as `int / int` true division
does for its result — raises `OverflowError` exactly when the mathematical
value rounds to `±∞`, i.e. when its magnitude reaches `2^1024 − 2^970` (the
round-to-nearest midpoint above the largest finite double).  Within the
float range the only arithmetic performed is comparison and division by
`1024 = 2¹⁰`, which is exact binary scaling; the one rounding step the model
does not carry (the correctly rounded result of the first `int / 1024`
division) can only influence displayed digits and unit boundaries for inputs
beyond `2^53`, on which no theorem below depends.
-/

/-! ## `aifinger.py`: the finger-state classifier -/

/-- One MediaPipe hand landmark: a normalized 2D position.  (The source also
receives a `z` field but never reads it; `x` and `y` are all that
`count_fingers` touches.) -/
structure Landmark where
  x : ℚ
  y : ℚ
deriving DecidableEq

/-- A hand observation: exactly 21 well-formed landmarks, indexed the way
`hand_landmarks.landmark[i]` is in the source. -/
structure HandLandmarks where
  landmark : Fin 21 → Landmark

/-- The list `tip_ids = [4, 8, 12, 16, 20]` from `count_fingers`. -/
def tip_ids : List (Fin 21) := [4, 8, 12, 16, 20]

/-- The `fingers` list built by `count_fingers`: first the thumb entry
(`landmark[4].x < landmark[3].x`), then one entry per
`id in range(1, 5)` comparing `landmark[tip_ids[id]].y` with
`landmark[tip_ids[id] - 2].y`. -/
def fingers (h : HandLandmarks) : List ℕ :=
  (if (h.landmark tip_ids.headI).x < (h.landmark (tip_ids.headI - 1)).x then 1 else 0) ::
    (tip_ids.drop 1).map fun tid =>
      if (h.landmark tid).y < (h.landmark (tid - 2)).y then 1 else 0

/-- The return value of `count_fingers`: `sum(fingers)`. -/
def count_fingers (h : HandLandmarks) : ℕ :=
  (fingers h).sum

/-- The parity label from the main loop:
`"Even" if finger_count % 2 == 0 else "Odd"`. -/
def parity_label (finger_count : ℕ) : String :=
  if finger_count % 2 = 0 then "Even" else "Odd"

/-! ## `streamlit_app.py`: the byte-size formatter -/

/-- Round to the nearest integer, ties to even — the rounding Python's float
formatting applies to the (here exactly represented) value. -/
def round_half_even (q : ℚ) : ℤ :=
  if q - ⌊q⌋ < 1 / 2 then ⌊q⌋
  else if 1 / 2 < q - ⌊q⌋ then ⌊q⌋ + 1
  else if ⌊q⌋ % 2 = 0 then ⌊q⌋ else ⌊q⌋ + 1

/-- Two-digit zero padding for the fractional part. -/
def pad2 (n : ℕ) : String :=
  if n < 10 then "0" ++ toString n else toString n

/-- Python's fixed-point formatting `f"{v:.2f}"` of an exactly represented
value: round to 2 decimal places (ties to even) and print with exactly two
digits after the point. -/
def fmt2 (q : ℚ) : String :=
  (if round_half_even (q * 100) < 0 then "-" else "")
    ++ toString ((round_half_even (q * 100)).natAbs / 100) ++ "."
    ++ pad2 ((round_half_even (q * 100)).natAbs % 100)

/-- The unit list of `format_bytes`. -/
def byte_units : List String := ["B", "KiB", "MiB", "GiB", "TiB"]

/-- How a call of `format_bytes` can end in CPython: with a returned string,
with a propagated `OverflowError`, or by falling off the loop (Python's
implicit `return None`). -/
inductive PyStrResult where
  | ok (s : String)
  | raised
  | noReturn
deriving DecidableEq

/-- The magnitude at which CPython float conversion overflows: a real value
rounds to `±∞` (raising `OverflowError`) exactly when its magnitude is at
least `2^1024 − 2^970`, the round-to-nearest midpoint above the largest
finite double `2^1024 − 2^971`. -/
def float_overflow_threshold : ℚ := 2 ^ 1024 - 2 ^ 970

/-- Whether converting a value of this magnitude to a double raises
`OverflowError`. -/
def overflows (q : ℚ) : Prop := float_overflow_threshold ≤ |q|

instance : DecidablePred overflows := fun q => by
  unfold overflows
  infer_instance

/-- The `for unit in [...]` loop of `format_bytes` from the second iteration
on, where `num_bytes` is a finite double strictly below the overflow
threshold: return `f"{num_bytes:.2f} {unit}"` when
`num_bytes < 1024 or unit == "TiB"` (formatting a finite double cannot
raise), else divide by 1024 — exact binary scaling of a double, which only
shrinks the magnitude and cannot raise — and continue.  Falling off the end
of the loop is Python's implicit `return None`, modelled as `noReturn`. -/
def format_bytes_go : ℚ → List String → PyStrResult
  | _, [] => .noReturn
  | num_bytes, unit :: rest =>
      if num_bytes < 1024 ∨ unit = "TiB" then .ok (fmt2 num_bytes ++ " " ++ unit)
      else format_bytes_go (num_bytes / 1024) rest

/-- The function `format_bytes(num_bytes)` from `streamlit_app.py`, first
loop iteration unrolled because there `num_bytes` is still the original
arbitrary-precision Python `int`: when that iteration returns
(`num_bytes < 1024`, the case for every negative input, since
`unit == "TiB"` is false at unit B), `f"{num_bytes:.2f}"` converts the int
to a double and raises `OverflowError` beyond the float range; otherwise
`num_bytes /= 1024` is int true division, whose correctly rounded result
raises `OverflowError` when the quotient reaches the float-overflow
threshold.  From then on `num_bytes` is a finite double below the threshold
and the remaining units follow `format_bytes_go`, where no error is
possible. -/
def format_bytes (num_bytes : ℤ) : PyStrResult :=
  if (num_bytes : ℚ) < 1024 then
    if overflows (num_bytes : ℚ) then .raised
    else .ok (fmt2 (num_bytes : ℚ) ++ " " ++ "B")
  else
    if overflows ((num_bytes : ℚ) / 1024) then .raised
    else format_bytes_go ((num_bytes : ℚ) / 1024) (byte_units.drop 1)

/-! ## `streamlit_app.py`: the dataset model and the CSV loader -/

/-- One column of a parsed dataframe: its label, the dtype string pandas
inferred for it (`df.dtypes.astype(str)` — type inference itself is the
external library's job), and its cells, with `none` for a missing (NaN)
entry. -/
structure Column where
  name : String
  dtype : String
  cells : List (Option String)
deriving DecidableEq

/-- A parsed dataframe: `nrows = len(df)` and the list of columns. -/
structure DataFrame where
  nrows : ℕ
  cols : List Column
deriving DecidableEq

/-- Outcome a single `pd.read_csv` call would have on the uploaded bytes:
a parsed dataframe, a `UnicodeDecodeError`, or any other exception. -/
inductive ParseOutcome where
  | ok (df : DataFrame)
  | unicodeDecodeError
  | otherError (msg : String)
deriving DecidableEq

/-- What the loader block leaves behind: a dataframe to render (flag records
whether the lossy retry produced it), a halt after `st.error`/`st.stop()`
with no partial results, or an uncaught exception (crash). -/
inductive LoaderOutcome where
  | parsed (df : DataFrame) (usedLossyFallback : Bool)
  | halted (msg : String)
  | crashed (msg : String)
deriving DecidableEq

/-- The `try/except` block of `streamlit_app.py` (lines 24–32).  `strict` is
the outcome `pd.read_csv(uploaded_file)` would have with default (strict)
decoding; `lossy` the outcome it would have after `seek(0)` with
`encoding_errors="ignore"`.  A `UnicodeDecodeError` from the first attempt
triggers the single lossy retry, whose own exceptions are uncaught; any
other first-attempt exception is reported via `st.error` and `st.stop()`
halts the script. -/
def load_dataset (strict lossy : ParseOutcome) : LoaderOutcome :=
  match strict with
  | .ok df => .parsed df false
  | .unicodeDecodeError =>
      match lossy with
      | .ok df => .parsed df true
      | .unicodeDecodeError => .crashed "UnicodeDecodeError"
      | .otherError msg => .crashed msg
  | .otherError msg => .halted msg

/-! ## `streamlit_app.py`: schema & missing values -/

/-- Pandas `df.isna().sum()` for one column: how many cells are missing. -/
def missing_count (c : Column) : ℕ :=
  (c.cells.filter fun x => x.isNone).length

/-- Line 53: `(missing_counts / len(df)).fillna(0) * 100 if len(df) else
missing_counts * 0`, for one column.  The `fillna` is irrelevant on the
guarded branch (the divisor is nonzero there). -/
def missing_pct (df : DataFrame) (c : Column) : ℚ :=
  if df.nrows ≠ 0 then ((missing_count c : ℚ) / (df.nrows : ℚ)) * 100
  else (missing_count c : ℚ) * 0

/-- Numpy/pandas `.round(2)`: round to 2 decimal places, ties to even. -/
def round2 (q : ℚ) : ℚ :=
  (round_half_even (q * 100) : ℚ) / 100

/-- One row of `schema_df`: column label, dtype string, missing count,
missing percentage rounded to 2 decimals. -/
structure SchemaRow where
  column : String
  dtype : String
  missing : ℕ
  missing_pct : ℚ
deriving DecidableEq

/-- The rows of `schema_df` in dataframe column order (lines 54–61). -/
def schema_rows (df : DataFrame) : List SchemaRow :=
  df.cols.map fun c => ⟨c.name, c.dtype, missing_count c, round2 (missing_pct df c)⟩

/-- The comparator of
`sort_values(["missing_%", "column"], ascending=[False, True])`:
`a` precedes `b` when `a` has strictly larger missing percentage, or equal
percentage and a name that is not larger. -/
def schema_order (a b : SchemaRow) : Prop :=
  b.missing_pct < a.missing_pct ∨ (a.missing_pct = b.missing_pct ∧ a.column ≤ b.column)

instance : DecidableRel schema_order := fun a b => by
  unfold schema_order
  infer_instance

/-- Line 62: the schema report as displayed — `schema_df` sorted by missing
percentage descending, ties broken by column name ascending (`sort_values`
modelled by a sort with the lexicographic comparator `schema_order`). -/
def sorted_schema (df : DataFrame) : List SchemaRow :=
  (schema_rows df).insertionSort schema_order

/-! ## `streamlit_app.py`: preview slider and top values -/

/-- The three arguments of the `st.slider` on line 47:
`min_value=5`, `max_value=min(1000, max(5, len(df)))`,
`value=min(50, len(df))`. -/
structure Slider where
  min_value : ℕ
  max_value : ℕ
  value : ℕ
deriving DecidableEq

/-- The preview slider built for a dataframe with `row_count` rows. -/
def rows_to_show_slider (row_count : ℕ) : Slider :=
  ⟨5, min 1000 (max 5 row_count), min 50 row_count⟩

/-- Comparator for `value_counts()`: larger count first. -/
def vc_order (a b : Option String × ℕ) : Prop :=
  b.2 ≤ a.2

instance : DecidableRel vc_order := fun a b => by
  unfold vc_order
  infer_instance

/-- Pandas `df[col].value_counts(dropna=False)`: one `(value, count)` pair per
distinct cell value — `none` (NaN) is its own category because of
`dropna=False` — sorted by count descending. -/
def value_counts (cells : List (Option String)) : List (Option String × ℕ) :=
  ((cells.dedup).map fun v => (v, cells.count v)).insertionSort vc_order

/-- Line 89: `value_counts(dropna=False).head(10)`. -/
def top_values (cells : List (Option String)) : List (Option String × ℕ) :=
  (value_counts cells).take 10

/-- The constant `max_columns = 3` from line 84. -/
def max_columns : ℕ := 3

/-- Line 87: the display slot of the `idx`-th categorical column is
`columns[idx % max_columns]`. -/
def slot_of (idx : ℕ) : ℕ :=
  idx % max_columns

/-- Line 85: `st.columns(min(max_columns, len(cat_cols)))` creates
`min(3, n)` display slots. -/
def num_slots (cat_col_count : ℕ) : ℕ :=
  min max_columns cat_col_count

/-! ## Concrete fixtures used by witness theorems -/

/-- A hand observation with every landmark at the origin. -/
def hand_zero : HandLandmarks :=
  ⟨fun _ => ⟨0, 0⟩⟩

/-- A hand observation agreeing with `hand_zero` on every coordinate that
`count_fingers` reads, but differing at landmark 0 (the wrist). -/
def hand_zero_wrist_moved : HandLandmarks :=
  ⟨fun i => if i = 0 then ⟨5, 7⟩ else ⟨0, 0⟩⟩

/-- A one-cell column used by witnesses. -/
def col_fixture : Column :=
  ⟨"a", "object", [some "x"]⟩

/-- A one-row, one-column dataframe used by witnesses. -/
def df_fixture : DataFrame :=
  ⟨1, [col_fixture]⟩

/-- A column with no cells, for the zero-row dataframe. -/
def col_empty : Column :=
  ⟨"a", "object", []⟩

/-- A dataframe with zero rows. -/
def df_empty : DataFrame :=
  ⟨0, [col_empty]⟩

/-- A concrete cell list (with repeated values and missing entries) used by
the top-values witness. -/
def cells_fixture : List (Option String) :=
  [some "a", none, some "a", none, some "b"]

/-! ## Helper instances and lemmas -/

instance : IsTotal SchemaRow schema_order :=
  ⟨by
    intro a b
    unfold schema_order
    rcases lt_trichotomy a.missing_pct b.missing_pct with h | h | h
    · exact Or.inr (Or.inl h)
    · rcases le_total a.column b.column with hc | hc
      · exact Or.inl (Or.inr ⟨h, hc⟩)
      · exact Or.inr (Or.inr ⟨h.symm, hc⟩)
    · exact Or.inl (Or.inl h)⟩

instance : IsTrans SchemaRow schema_order :=
  ⟨by
    intro a b c hab hbc
    unfold schema_order at hab hbc ⊢
    rcases hab with h1 | ⟨h1, h1n⟩ <;> rcases hbc with h2 | ⟨h2, h2n⟩
    · exact Or.inl (by linarith)
    · exact Or.inl (by linarith)
    · exact Or.inl (by linarith)
    · exact Or.inr ⟨by linarith, h1n.trans h2n⟩⟩

instance : IsTotal (Option String × ℕ) vc_order :=
  ⟨by
    intro a b
    unfold vc_order
    exact le_total b.2 a.2⟩

instance : IsTrans (Option String × ℕ) vc_order :=
  ⟨by
    intro a b c hab hbc
    unfold vc_order at hab hbc ⊢
    exact hbc.trans hab⟩

/-- Unfolding `count_fingers` to the five explicit landmark comparisons. -/
theorem count_fingers_eval (h : HandLandmarks) :
    count_fingers h =
      (if (h.landmark 4).x < (h.landmark 3).x then 1 else 0)
        + ((if (h.landmark 8).y < (h.landmark 6).y then 1 else 0)
        + ((if (h.landmark 12).y < (h.landmark 10).y then 1 else 0)
        + ((if (h.landmark 16).y < (h.landmark 14).y then 1 else 0)
        + ((if (h.landmark 20).y < (h.landmark 18).y then 1 else 0) + 0)))) :=
  rfl

/-- Rounding an integer (cast to `ℚ`) is the identity. -/
theorem round_half_even_intCast (z : ℤ) : round_half_even (z : ℚ) = z := by
  unfold round_half_even
  rw [Int.floor_intCast]
  norm_num

/-- Fixed-point formatting of an integer value: sign, digits, then `".00"`. -/
theorem fmt2_intCast (z : ℤ) :
    fmt2 (z : ℚ) = (if z < 0 then "-" else "") ++ toString z.natAbs ++ "." ++ "00" := by
  unfold fmt2
  have h100 : (z : ℚ) * 100 = ((z * 100 : ℤ) : ℚ) := by push_cast; ring
  rw [h100, round_half_even_intCast]
  have habs : (z * 100).natAbs = z.natAbs * 100 := by
    rw [Int.natAbs_mul]
    rfl
  rw [habs]
  have hdiv : z.natAbs * 100 / 100 = z.natAbs := Nat.mul_div_cancel _ (by norm_num)
  have hmod : z.natAbs * 100 % 100 = 0 := Nat.mul_mod_left _ _
  rw [hdiv, hmod, show pad2 0 = "00" from rfl]
  by_cases hz : z < 0
  · rw [if_pos (show z * 100 < 0 by omega), if_pos hz]
  · rw [if_neg (show ¬z * 100 < 0 by omega), if_neg hz]

/-- A value strictly below the overflow threshold in magnitude does not
overflow. -/
theorem not_overflows_of_abs_lt {q : ℚ} (h : |q| < 2 ^ 1024 - 2 ^ 970) :
    ¬overflows q := by
  unfold overflows float_overflow_threshold
  exact not_le.mpr h

/-- An input already below 1024 that fits in a double is formatted in bytes
immediately. -/
theorem format_bytes_small (n : ℤ) (h0 : (n : ℚ) < 1024)
    (h1 : ¬overflows (n : ℚ)) :
    format_bytes n = .ok (fmt2 (n : ℚ) ++ " " ++ "B") := by
  unfold format_bytes
  rw [if_pos h0, if_neg h1]

/-- After the first division the loop always returns on one of the four
remaining units (the last one unconditionally), so once past the first
iteration neither an error nor the implicit `return None` can occur. -/
theorem format_bytes_go_tail_total (q : ℚ) :
    ∃ r : ℚ, ∃ unit ∈ byte_units,
      format_bytes_go q (byte_units.drop 1) = .ok (fmt2 r ++ " " ++ unit) := by
  show ∃ r : ℚ, ∃ unit ∈ byte_units,
    format_bytes_go q ["KiB", "MiB", "GiB", "TiB"] = .ok (fmt2 r ++ " " ++ unit)
  simp only [format_bytes_go]
  split_ifs with h1 h2 h3 h4
  · exact ⟨_, "KiB", by simp [byte_units], rfl⟩
  · exact ⟨_, "MiB", by simp [byte_units], rfl⟩
  · exact ⟨_, "GiB", by simp [byte_units], rfl⟩
  · exact ⟨_, "TiB", by simp [byte_units], rfl⟩
  · exact absurd (Or.inr trivial) h4

/-- Inputs whose float conversions stay finite are formatted without error:
negatives must fit in a double directly (the B branch formats the int) and
positives must keep the first quotient below the threshold. -/
theorem format_bytes_in_range (n : ℤ)
    (hlo : -(2 ^ 1024 - 2 ^ 970) < n) (hhi : n < 2 ^ 1034 - 2 ^ 980) :
    ∃ q : ℚ, ∃ unit ∈ byte_units, format_bytes n = .ok (fmt2 q ++ " " ++ unit) := by
  unfold format_bytes
  by_cases h1 : (n : ℚ) < 1024
  · rw [if_pos h1, if_neg (not_overflows_of_abs_lt ?_)]
    · exact ⟨_, "B", by simp [byte_units], rfl⟩
    · rw [abs_lt]
      constructor
      · exact_mod_cast hlo
      · calc (n : ℚ) < 1024 := h1
          _ < 2 ^ 1024 - 2 ^ 970 := by norm_num
  · rw [if_neg h1, if_neg (not_overflows_of_abs_lt ?_)]
    · exact format_bytes_go_tail_total _
    · have hn : (1024 : ℚ) ≤ (n : ℚ) := le_of_not_lt h1
      rw [abs_lt]
      constructor
      · have hT : (0 : ℚ) < 2 ^ 1024 - 2 ^ 970 := by norm_num
        have hq : (1 : ℚ) ≤ (n : ℚ) / 1024 := by
          rw [le_div_iff₀ (by norm_num)]
          linarith
        linarith
      · rw [div_lt_iff₀ (by norm_num)]
        have hhi' : (n : ℚ) < 2 ^ 1034 - 2 ^ 980 := by exact_mod_cast hhi
        calc (n : ℚ) < 2 ^ 1034 - 2 ^ 980 := hhi'
          _ = (2 ^ 1024 - 2 ^ 970) * 1024 := by norm_num

/-! ## Claim theorems -/

/-- C3: for every hand observation (21 well-formed landmarks), the
finger-state vector built by `count_fingers` has exactly 5 entries, each
entry is 0 or 1, and the returned count equals the sum of the vector and
lies in [0, 5]. -/
theorem finger_vector_invariant (h : HandLandmarks) :
    (fingers h).length = 5 ∧ (∀ f ∈ fingers h, f = 0 ∨ f = 1) ∧
      count_fingers h = (fingers h).sum ∧ count_fingers h ≤ 5 := by
  refine ⟨rfl, ?_, rfl, ?_⟩
  · intro f hf
    simp only [fingers, tip_ids, List.headI, List.drop, List.map, List.mem_cons,
      List.not_mem_nil, or_false] at hf
    rcases hf with h1 | h1 | h1 | h1 | h1 <;> (subst h1; split_ifs <;> simp)
  · rw [count_fingers_eval]
    split_ifs <;> norm_num

/-- Witness for C3 at a concrete hand observation. -/
theorem finger_vector_invariant_witness :
    (fingers hand_zero).length = 5 ∧ ((0 : ℕ) = 0 ∨ (0 : ℕ) = 1) ∧
      count_fingers hand_zero ≤ 5 :=
  ⟨(finger_vector_invariant hand_zero).1,
   (finger_vector_invariant hand_zero).2.1 0 (by decide),
   (finger_vector_invariant hand_zero).2.2.2⟩

/-- C4: `count_fingers` classifies the thumb as extended exactly when
`landmark[4].x < landmark[3].x`, each other finger (tips 8, 12, 16, 20)
exactly when the tip's y is below the y of the landmark two positions
before it, returns the sum of the five binary values, and the parity label
is `"Even"` exactly when the count is even and `"Odd"` otherwise. -/
theorem count_fingers_rules (h : HandLandmarks) :
    count_fingers h =
      (if (h.landmark 4).x < (h.landmark 3).x then 1 else 0)
        + (if (h.landmark 8).y < (h.landmark 6).y then 1 else 0)
        + (if (h.landmark 12).y < (h.landmark 10).y then 1 else 0)
        + (if (h.landmark 16).y < (h.landmark 14).y then 1 else 0)
        + (if (h.landmark 20).y < (h.landmark 18).y then 1 else 0) ∧
      (parity_label (count_fingers h) = "Even" ↔ count_fingers h % 2 = 0) ∧
      (parity_label (count_fingers h) = "Odd" ↔ ¬count_fingers h % 2 = 0) := by
  refine ⟨?_, ?_, ?_⟩
  · rw [count_fingers_eval]
    ring
  · unfold parity_label
    split_ifs with hp
    · simp [hp]
    · exact iff_of_false (by decide) hp
  · unfold parity_label
    split_ifs with hp
    · exact iff_of_false (by decide) fun hh => hh hp
    · exact iff_of_true rfl hp

/-- C9: `count_fingers` depends only on the x-coordinates of landmarks 3
and 4 and the y-coordinates of landmarks 6, 8, 10, 12, 14, 16, 18 and 20:
two observations agreeing on those ten coordinates get the same count. -/
theorem count_fingers_coord_dependence (h1 h2 : HandLandmarks)
    (hx4 : (h1.landmark 4).x = (h2.landmark 4).x)
    (hx3 : (h1.landmark 3).x = (h2.landmark 3).x)
    (hy8 : (h1.landmark 8).y = (h2.landmark 8).y)
    (hy6 : (h1.landmark 6).y = (h2.landmark 6).y)
    (hy12 : (h1.landmark 12).y = (h2.landmark 12).y)
    (hy10 : (h1.landmark 10).y = (h2.landmark 10).y)
    (hy16 : (h1.landmark 16).y = (h2.landmark 16).y)
    (hy14 : (h1.landmark 14).y = (h2.landmark 14).y)
    (hy20 : (h1.landmark 20).y = (h2.landmark 20).y)
    (hy18 : (h1.landmark 18).y = (h2.landmark 18).y) :
    count_fingers h1 = count_fingers h2 := by
  rw [count_fingers_eval, count_fingers_eval, hx4, hx3, hy8, hy6, hy12, hy10,
    hy16, hy14, hy20, hy18]

/-- Witness for C9: two concrete observations differing at the wrist
landmark but agreeing on the ten compared coordinates. -/
theorem count_fingers_coord_dependence_witness :
    count_fingers hand_zero = count_fingers hand_zero_wrist_moved :=
  count_fingers_coord_dependence hand_zero hand_zero_wrist_moved
    rfl rfl rfl rfl rfl rfl rfl rfl rfl rfl

/-- Loop step: a magnitude of at least 1024 at a unit other than the last
divides by 1024 and moves to the next unit. -/
theorem format_bytes_go_step (q : ℚ) (u : String) (rest : List String)
    (h1 : ¬q < 1024) (h2 : ¬u = "TiB") :
    format_bytes_go q (u :: rest) = format_bytes_go (q / 1024) rest := by
  rw [format_bytes_go, if_neg (not_or.mpr ⟨h1, h2⟩)]

/-- Counterexample to C2 as stated: at the concrete input `2 ^ 1100`, the
first `num_bytes /= 1024` true division of the Python int overflows the
double range (the quotient `2 ^ 1090` exceeds `2 ^ 1024 − 2 ^ 970`), so
CPython raises `OverflowError` instead of returning a formatted string —
"no error for arbitrarily large inputs" is false of the program. -/
theorem format_bytes_overflow_counterexample :
    format_bytes (2 ^ 1100) = PyStrResult.raised := by
  have h1 : ¬((2 ^ 1100 : ℤ) : ℚ) < 1024 := by
    push_cast
    norm_num
  have h2 : overflows (((2 ^ 1100 : ℤ) : ℚ) / 1024) := by
    unfold overflows float_overflow_threshold
    rw [abs_of_nonneg (by positivity)]
    rw [le_div_iff₀ (by norm_num)]
    push_cast
    norm_num
  unfold format_bytes
  rw [if_neg h1, if_pos h2]

/-- C2 (amended): `format_bytes` divides by 1024 through B, KiB, MiB, GiB,
TiB, stopping below 1024 or at the last unit, and prints two decimals plus
the unit: `format_bytes 0 = "0.00 B"`, `format_bytes 1023 = "1023.00 B"`,
`format_bytes 1024 = "1.00 KiB"`, `format_bytes (1024^4) = "1.00 TiB"`;
and every input in the range where CPython's int-to-double conversion and
first division stay finite — `−(2^1024 − 2^970) < n < 2^1034 − 2^980` —
yields an output with no error, whose unit is drawn from the list ending
at TiB.  (Outside that range the program raises `OverflowError`.) -/
theorem format_bytes_spec :
    format_bytes 0 = .ok "0.00 B" ∧
    format_bytes 1023 = .ok "1023.00 B" ∧
    format_bytes 1024 = .ok "1.00 KiB" ∧
    format_bytes (1024 ^ 4) = .ok "1.00 TiB" ∧
    ∀ n : ℤ, -(2 ^ 1024 - 2 ^ 970) < n → n < 2 ^ 1034 - 2 ^ 980 →
      ∃ q : ℚ, ∃ unit ∈ byte_units,
        format_bytes n = .ok (fmt2 q ++ " " ++ unit) := by
  refine ⟨?_, ?_, ?_, ?_, format_bytes_in_range⟩
  · rw [format_bytes_small 0 (by norm_num)
        (not_overflows_of_abs_lt (by rw [abs_lt]; constructor <;> norm_num)),
      fmt2_intCast]
    decide
  · rw [format_bytes_small 1023 (by norm_num)
        (not_overflows_of_abs_lt (by rw [abs_lt]; constructor <;> norm_num)),
      fmt2_intCast]
    decide
  · unfold format_bytes
    rw [if_neg (by norm_num),
      if_neg (not_overflows_of_abs_lt (by rw [abs_lt]; constructor <;> norm_num)),
      show (((1024 : ℤ) : ℚ)) / 1024 = ((1 : ℤ) : ℚ) by norm_num]
    show format_bytes_go _ ["KiB", "MiB", "GiB", "TiB"] = _
    rw [format_bytes_go, if_pos (Or.inl (by norm_num)), fmt2_intCast]
    decide
  · unfold format_bytes
    rw [if_neg (by norm_num),
      if_neg (not_overflows_of_abs_lt (by rw [abs_lt]; constructor <;> norm_num))]
    show format_bytes_go _ ["KiB", "MiB", "GiB", "TiB"] = _
    rw [format_bytes_go_step _ _ _ (by norm_num) (by decide),
      format_bytes_go_step _ _ _ (by norm_num) (by decide),
      format_bytes_go_step _ _ _ (by norm_num) (by decide),
      show (((1024 : ℤ) ^ 4 : ℤ) : ℚ) / 1024 / 1024 / 1024 / 1024 = ((1 : ℤ) : ℚ) by
        norm_num,
      format_bytes_go, if_pos (Or.inr rfl), fmt2_intCast]
    decide

/-- Witness for C2 exercising the range hypotheses at the concrete
in-range input 5000. -/
theorem format_bytes_spec_witness :
    ∃ q : ℚ, ∃ unit ∈ byte_units, format_bytes 5000 = .ok (fmt2 q ++ " " ++ unit) :=
  format_bytes_spec.2.2.2.2 5000 (by norm_num) (by norm_num)

/-- Counterexample to C10 as stated: at the concrete negative input
`−(2 ^ 1100)`, the B branch is taken but `f"{num_bytes:.2f}"` must convert
the Python int to a double, which overflows, so CPython raises
`OverflowError` — the function neither "always returns a string" nor
returns a B-formatted string for every negative input. -/
theorem format_bytes_negative_overflow_counterexample :
    format_bytes (-2 ^ 1100) = PyStrResult.raised := by
  have h1 : ((-2 ^ 1100 : ℤ) : ℚ) < 1024 := by
    push_cast
    norm_num
  have h2 : overflows ((-2 ^ 1100 : ℤ) : ℚ) := by
    unfold overflows float_overflow_threshold
    rw [abs_of_nonpos (by push_cast; norm_num)]
    push_cast
    norm_num
  unfold format_bytes
  rw [if_pos h1, if_pos h2]

/-- C10 (amended): the for-loop fall-through (Python's implicit
`return None`) is unreachable for every integer input — the TiB branch
returns unconditionally, and the only other way out is an `OverflowError`
raised before the loop is exhausted — and every negative input above
`−(2^1024 − 2^970)` (the double-conversion overflow threshold) returns
immediately with unit B; more negative inputs raise instead of
returning. -/
theorem format_bytes_never_none (n : ℤ) :
    format_bytes n ≠ PyStrResult.noReturn ∧
    (-(2 ^ 1024 - 2 ^ 970) < n → n < 0 →
      format_bytes n = .ok (fmt2 (n : ℚ) ++ " " ++ "B")) := by
  constructor
  · unfold format_bytes
    split_ifs
    · exact fun h => PyStrResult.noConfusion h
    · exact fun h => PyStrResult.noConfusion h
    · exact fun h => PyStrResult.noConfusion h
    · obtain ⟨r, u, hu, he⟩ := format_bytes_go_tail_total ((n : ℚ) / 1024)
      rw [he]
      exact fun h => PyStrResult.noConfusion h
  · intro hlo hn
    refine format_bytes_small n ?_ (not_overflows_of_abs_lt ?_)
    · have hq : (n : ℚ) < 0 := by exact_mod_cast hn
      linarith
    · rw [abs_lt]
      constructor
      · exact_mod_cast hlo
      · have hq : (n : ℚ) < 0 := by exact_mod_cast hn
        have hT : (0 : ℚ) < 2 ^ 1024 - 2 ^ 970 := by norm_num
        linarith

/-- Witness for C10 at the concrete negative in-range input −5. -/
theorem format_bytes_never_none_witness :
    format_bytes (-5) ≠ PyStrResult.noReturn ∧
    format_bytes (-5) = .ok (fmt2 ((-5 : ℤ) : ℚ) ++ " " ++ "B") :=
  ⟨(format_bytes_never_none (-5)).1,
   (format_bytes_never_none (-5)).2 (by norm_num) (by norm_num)⟩

/-- C1: the CSV loader has exactly three paths — a successful strict parse
renders its dataframe without any retry; the lossy retry runs exactly when
the strict attempt raises a decode error (on any other strict outcome the
lossy parse is never consulted), and it renders the retried dataframe when
lossy decoding succeeds (as it does for merely non-UTF8 input, since
invalid byte sequences are ignored); and any other strict parse exception
is caught and surfaced, halting processing with no partial results and no
crash. -/
theorem load_dataset_three_paths (strict lossy : ParseOutcome) :
    (∀ df, strict = .ok df → load_dataset strict lossy = .parsed df false) ∧
    (∀ df, strict = .unicodeDecodeError → lossy = .ok df →
      load_dataset strict lossy = .parsed df true) ∧
    (∀ l1 l2 : ParseOutcome, strict ≠ .unicodeDecodeError →
      load_dataset strict l1 = load_dataset strict l2) ∧
    (∀ msg, strict = .otherError msg → load_dataset strict lossy = .halted msg) := by
  refine ⟨fun df h => ?_, fun df h h2 => ?_, fun l1 l2 h => ?_, fun msg h => ?_⟩
  · subst h
    rfl
  · subst h
    subst h2
    rfl
  · cases strict with
    | ok df => rfl
    | unicodeDecodeError => exact absurd rfl h
    | otherError m => rfl
  · subst h
    rfl

/-- Witness for C1 on concrete parse outcomes: the error path halts, the
decode-error path renders the lossy result, the success path renders
without retry. -/
theorem load_dataset_three_paths_witness :
    load_dataset (.otherError "boom") (.ok df_fixture) = .halted "boom" ∧
    load_dataset .unicodeDecodeError (.ok df_fixture) = .parsed df_fixture true ∧
    load_dataset (.ok df_fixture) (.otherError "boom") = .parsed df_fixture false :=
  ⟨(load_dataset_three_paths (.otherError "boom") (.ok df_fixture)).2.2.2 "boom" rfl,
   (load_dataset_three_paths .unicodeDecodeError (.ok df_fixture)).2.1 df_fixture rfl rfl,
   (load_dataset_three_paths (.ok df_fixture) (.otherError "boom")).1 df_fixture rfl⟩

/-- C5: with 0 rows the missing-value percentage is 0 for every column; the
division by the row count sits behind the `if len(df)` guard, so the
division branch is not taken. -/
theorem missing_pct_zero_rows (df : DataFrame) (h : df.nrows = 0) :
    ∀ c ∈ df.cols, missing_pct df c = 0 := by
  intro c _
  unfold missing_pct
  rw [if_neg (by simp [h])]
  exact mul_zero _

/-- Witness for C5 on the concrete zero-row dataframe. -/
theorem missing_pct_zero_rows_witness :
    missing_pct df_empty col_empty = 0 :=
  missing_pct_zero_rows df_empty rfl col_empty (by decide)

/-- C6: the displayed schema report has one row per column carrying its
name, inferred dtype, missing count and missing percentage rounded to two
decimals, and is sorted by missing percentage descending with ties broken
by column name ascending. -/
theorem schema_report_spec (df : DataFrame) :
    List.Sorted schema_order (sorted_schema df) ∧
    (sorted_schema df).Perm (schema_rows df) ∧
    ∀ c ∈ df.cols,
      (⟨c.name, c.dtype, missing_count c, round2 (missing_pct df c)⟩ : SchemaRow) ∈
        sorted_schema df := by
  refine ⟨?_, ?_, ?_⟩
  · unfold sorted_schema
    exact List.sorted_insertionSort schema_order (schema_rows df)
  · unfold sorted_schema
    exact List.perm_insertionSort schema_order (schema_rows df)
  · intro c hc
    unfold sorted_schema
    rw [List.mem_insertionSort]
    unfold schema_rows
    exact List.mem_map_of_mem _ hc

/-- Witness for C6 on a concrete one-column dataframe. -/
theorem schema_report_spec_witness :
    List.Sorted schema_order (sorted_schema df_fixture) ∧
    (⟨col_fixture.name, col_fixture.dtype, missing_count col_fixture,
        round2 (missing_pct df_fixture col_fixture)⟩ : SchemaRow) ∈
      sorted_schema df_fixture :=
  ⟨(schema_report_spec df_fixture).1,
   (schema_report_spec df_fixture).2.2 col_fixture (by decide)⟩

/-- C7: the preview slider has lower bound 5, upper bound
`min 1000 (max 5 row_count)` and default `min 50 row_count`; the upper
bound is never below 5, and for a 3-row dataset it is exactly 5. -/
theorem rows_to_show_slider_spec :
    (∀ rc : ℕ, rows_to_show_slider rc =
      ⟨5, min 1000 (max 5 rc), min 50 rc⟩) ∧
    (∀ rc : ℕ, 5 ≤ (rows_to_show_slider rc).max_value) ∧
    (rows_to_show_slider 3).max_value = 5 := by
  refine ⟨fun rc => rfl, fun rc => ?_, by decide⟩
  unfold rows_to_show_slider
  simp only
  omega

/-- C8: each non-numeric column's top-values table lists distinct cell
values with their exact occurrence counts, missing entries forming their
own category, keeps at most 10 rows, every kept row's count is at least
every dropped row's count, and the `idx`-th categorical column is shown in
slot `idx % 3`, which always indexes one of the created display slots. -/
theorem top_values_spec (cells : List (Option String)) :
    (top_values cells).length ≤ 10 ∧
    (∀ p ∈ top_values cells, p.1 ∈ cells ∧ p.2 = cells.count p.1) ∧
    ((none : Option String) ∈ cells →
      ((none : Option String), cells.count (none : Option String)) ∈ value_counts cells) ∧
    (∀ p ∈ top_values cells, ∀ q ∈ (value_counts cells).drop 10, q.2 ≤ p.2) ∧
    (∀ idx n : ℕ, idx < n → slot_of idx = idx % 3 ∧ slot_of idx < num_slots n) := by
  refine ⟨?_, ?_, ?_, ?_, ?_⟩
  · unfold top_values
    exact List.length_take_le 10 (value_counts cells)
  · intro p hp
    have hp' : p ∈ value_counts cells := List.mem_of_mem_take hp
    unfold value_counts at hp'
    rw [List.mem_insertionSort] at hp'
    obtain ⟨v, hv, rfl⟩ := List.mem_map.mp hp'
    exact ⟨List.mem_dedup.mp hv, rfl⟩
  · intro hnone
    unfold value_counts
    rw [List.mem_insertionSort]
    exact List.mem_map_of_mem _ (List.mem_dedup.mpr hnone)
  · intro p hp q hq
    have hs : List.Pairwise vc_order (value_counts cells) := by
      unfold value_counts
      exact List.sorted_insertionSort vc_order _
    rw [← List.take_append_drop 10 (value_counts cells)] at hs
    exact (List.pairwise_append.mp hs).2.2 p hp q hq
  · intro idx n hlt
    refine ⟨rfl, ?_⟩
    unfold slot_of num_slots max_columns
    omega

/-- Witness for C8 on a concrete cell list with repeated and missing
values. -/
theorem top_values_spec_witness :
    ((none : Option String), cells_fixture.count (none : Option String)) ∈
      value_counts cells_fixture ∧
    slot_of 4 < num_slots 5 :=
  ⟨(top_values_spec cells_fixture).2.2.1 (by decide),
   ((top_values_spec cells_fixture).2.2.2.2 4 5 (by decide)).2⟩
